import Mathlib

/-!
Shallow embedding of the adversarial-training orchestration layer of
`robust_speech` (`robust_speech/brain.py`) and of the metric and alignment
reporting utilities (`robust_speech/adversarial/write_result.py`),
with theorems settling the specification claims about them.

External collaborators (the wrapped training framework, attack objects,
autodiff, the `jiwer` word-error-rate function) are abstracted as function
parameters, exactly as the specification treats them.  Python exceptions
are modelled with `Except String`.
-/

namespace RobustSpeech

/-- Experiment stages: the three `speechbrain` stages plus the extra
adversarial `ATTACK` stage of `robust_speech`. -/
inductive Stage where
  | train
  | valid
  | test
  | attack
deriving DecidableEq, Repr

/-- A dataloader batch, reduced to the one field the brain code
manipulates: `batch.sig` is the pair (waveform tensor, relative lengths). -/
structure Batch (W M : Type) where
  sig : W × M
deriving DecidableEq, Repr

/-- `AdvASRBrain.compute_forward_adversarial` (brain.py lines 182-191).

The attacker attribute is modelled as `Option`, its `perturb` method as a
function from the batch to a perturbed waveform, and `compute_forward` of
the concrete subclass as an abstract function.  The three possible Python
exceptions are modelled as `Except.error`: the failed `assert` for the
ATTACK stage, and the `NameError` raised by the unconditional
`del adv_wavs` on the path where no attacker perturbed the batch (there
`adv_wavs` was never assigned).  The returned pair is the result of
`compute_forward` together with the state of the (mutated) batch at
return time. -/
def compute_forward_adversarial {W M R : Type} (attacker : Option (Batch W M → W))
    (compute_forward : Batch W M → Stage → R)
    (batch : Batch W M) (stage : Stage) : Except String (R × Batch W M) :=
  if stage = Stage.attack then .error ("AssertionError")
  else
    let wavs := batch.sig.1
    match attacker with
    | some perturb =>
        let adv_wavs := perturb batch
        let batch1 : Batch W M := { batch with sig := (adv_wavs, batch.sig.2) }
        let res := compute_forward batch1 stage
        let batch2 : Batch W M := { batch1 with sig := (wavs, batch1.sig.2) }
        .ok (res, batch2)
    | none =>
        let res := compute_forward batch stage
        let batch1 : Batch W M := { batch with sig := (wavs, batch.sig.2) }
        let _ := res
        let _ := batch1
        .error ("NameError: name adv_wavs is not defined")

/-- C2: `AdvASRBrain.compute_forward_adversarial` is claimed to compute
`compute_forward` on the unperturbed batch when no attacker is configured.
In fact the trailing `del adv_wavs` is unconditional, and on the
no-attacker path `adv_wavs` was never assigned, so the call raises
`NameError` instead of returning the clean forward pass: at the concrete
batch with waveform `5` and stage TRAIN the embedded function returns the
error, not `Except.ok`. -/
theorem compute_forward_adversarial_without_attacker_raises :
    compute_forward_adversarial (none : Option (Batch ℕ ℕ → ℕ))
        (fun b _ => b.sig.1) (Batch.mk (5, 1)) Stage.train
      = .error ("NameError: name adv_wavs is not defined") := rfl

/-- C3: whenever `compute_forward_adversarial` returns normally, the
waveform component of `batch.sig` in the returned batch state equals the
clean waveform the batch held before the call: the adversarial
perturbation does not persist in the batch. -/
theorem compute_forward_adversarial_restores_sig {W M R : Type}
    (attacker : Option (Batch W M → W)) (compute_forward : Batch W M → Stage → R)
    (batch : Batch W M) (stage : Stage) (r : R) (batch_out : Batch W M)
    (h : compute_forward_adversarial attacker compute_forward batch stage = .ok (r, batch_out)) :
    batch_out.sig.1 = batch.sig.1 := by
  unfold compute_forward_adversarial at h
  by_cases hs : stage = Stage.attack
  · rw [if_pos hs] at h
    exact absurd h (by simp)
  · rw [if_neg hs] at h
    cases attacker with
    | none => exact absurd h (by simp)
    | some perturb =>
        simp only [Except.ok.injEq, Prod.mk.injEq] at h
        rw [← h.2]

/-- Witness for C3 at a concrete input: a configured attacker that shifts
the waveform by one, a forward pass reading the waveform, and the batch
with signal `(5, 1)`. -/
theorem compute_forward_adversarial_restores_sig_witness :
    ((Batch.mk (5, 1) : Batch ℕ ℕ)).sig.1 = ((Batch.mk (5, 1) : Batch ℕ ℕ)).sig.1 :=
  compute_forward_adversarial_restores_sig
    (some (fun b => b.sig.1 + 1)) (fun b _ => b.sig.1)
    (Batch.mk (5, 1)) Stage.train 6 (Batch.mk (5, 1)) (by rfl)

/-- `PredictionEnsemble` (brain.py lines 77-83): a wrapper around the list
of per-model predictions.  It defines `__len__` and a malformed
`__iter__(self, i)`, but no `__getitem__`. -/
structure PredictionEnsemble (P : Type) where
  predictions : List P

/-- Python `len(pe)`, via the `__len__` of `PredictionEnsemble`. -/
def PredictionEnsemble.len {P : Type} (pe : PredictionEnsemble P) : ℕ :=
  pe.predictions.length

/-- Python subscription `pe[i]`.  `PredictionEnsemble` defines no
`__getitem__` (only the malformed `__iter__(self, i)` that was apparently
meant to be one), so subscription raises `TypeError` for every index. -/
def PredictionEnsemble.getitem {P : Type} (_pe : PredictionEnsemble P) (_i : ℕ) :
    Except String P :=
  .error ("TypeError: PredictionEnsemble object is not subscriptable")

/-- One torch tensor value as the ensemble code handles it: either a
scalar loss or a stacked vector of per-model losses. -/
inductive TorchVal where
  | scalar (q : ℚ)
  | stack (l : List ℚ)
deriving DecidableEq, Repr

/-- `EnsembleASRBrain` (brain.py lines 85-125): each wrapped brain is
abstracted by its `compute_objectives` function (predictions, batch and
stage to a scalar loss). -/
structure EnsembleASRBrain (P B : Type) where
  asr_brains : List (P → B → Stage → ℚ)
  ref_tokens : ℕ

/-- `self.nmodels`, set to `len(asr_brains)` in `__init__`. -/
def EnsembleASRBrain.nmodels {P B : Type} (e : EnsembleASRBrain P B) : ℕ :=
  e.asr_brains.length

/-- The loss-collecting loop of `EnsembleASRBrain.compute_objectives`
(brain.py lines 115-120) in the `model_idx = None` case: for each model
index it subscripts the `PredictionEnsemble` (which raises `TypeError`)
and would then compute that brain's objectives. -/
def ensembleLossLoop {P B : Type} (pe : PredictionEnsemble P) (batch : B) (stage : Stage) :
    List (P → B → Stage → ℚ) → ℕ → Except String (List ℚ)
  | [], _ => .ok []
  | ab :: rest, i =>
    match pe.getitem i with
    | .error err => .error err
    | .ok pred =>
        let loss := ab pred batch stage
        match ensembleLossLoop pe batch stage rest (i + 1) with
        | .error err => .error err
        | .ok ls => .ok (loss :: ls)

/-- `EnsembleASRBrain.compute_objectives` (brain.py lines 111-125) on a
`PredictionEnsemble` with `model_idx = None`, one prediction per wrapped
brain.  The `assert len(predictions)==self.nmodels` is the first error
case; `torch.stack` of an empty loss list raises; after the loop the
source evaluates `torch.mean(loss, dim=0)` where `loss` is the leftover
loop variable, i.e. the LAST model's scalar loss (mean over `dim=0` of a
0-dim tensor is the value itself) — not the stacked `losses`. -/
def EnsembleASRBrain.compute_objectives {P B : Type} (e : EnsembleASRBrain P B)
    (predictions : PredictionEnsemble P) (batch : B) (stage : Stage) (average : Bool) :
    Except String TorchVal :=
  if predictions.len ≠ e.nmodels then .error ("AssertionError")
  else
    match ensembleLossLoop predictions batch stage e.asr_brains 0 with
    | .error err => .error err
    | .ok losses =>
      match losses.getLast? with
      | none => .error ("RuntimeError: stack expects a non-empty TensorList")
      | some lastLoss =>
          if average then .ok (TorchVal.scalar lastLoss)
          else .ok (TorchVal.stack losses)

/-- C1: `EnsembleASRBrain.compute_objectives` with `average=True` is
claimed to return the mean over all models of the individual losses.  On
the concrete two-model ensemble whose brains yield losses `0` and `2`
(so the claimed result is the scalar `1`), the call instead raises
`TypeError`: `PredictionEnsemble` has no `__getitem__`, so the very first
`predictions[i]` in the loop fails.  (Even with subscription repaired, the
source returns `torch.mean(loss, dim=0)` of the loop variable `loss`,
i.e. the last model's loss `2`, since the stacked tensor is named
`losses`.) -/
theorem ensemble_compute_objectives_average_raises :
    EnsembleASRBrain.compute_objectives
        (EnsembleASRBrain.mk [fun _ _ _ => (0 : ℚ), fun _ _ _ => (2 : ℚ)] 0)
        (PredictionEnsemble.mk [(0 : ℕ), 1]) () Stage.train true
      = .error ("TypeError: PredictionEnsemble object is not subscriptable") := rfl

/-- One evaluation loop of `AdvASRBrain` — the validation loop inside
`fit` (brain.py lines 401-417) and the test loop inside `evaluate`
(brain.py lines 485-497) share this shape.  `evaluate_batch` and
`evaluate_batch_adversarial` are the (abstracted) clean and adversarial
per-batch losses; `update_average` is `sb.Brain.update_average`,
abstracted as a function of the new loss, the running average and
`self.step`.  Returns the list of batches given to `evaluate_batch`, the
list given to `evaluate_batch_adversarial`, and the two final running
averages.  The final `if` models the debug cutoff
`if self.debug and self.step == self.debug_batches: break`. -/
def evalLoop {B : Type} (evaluate_batch evaluate_batch_adversarial : B → ℚ)
    (update_average : ℚ → ℚ → ℕ → ℚ) (debug : Bool) (debug_batches : ℕ) :
    List B → ℕ → ℚ → ℚ → List B × List B × ℚ × ℚ
  | [], _, avg, avgAdv => ([], [], avg, avgAdv)
  | batch :: rest, step, avg, avgAdv =>
      let step1 := step + 1
      let loss := evaluate_batch batch
      let avg1 := update_average loss avg step1
      let adv_loss := evaluate_batch_adversarial batch
      let avgAdv1 := update_average adv_loss avgAdv step1
      if debug = true ∧ step1 = debug_batches then ([batch], [batch], avg1, avgAdv1)
      else
        let r := evalLoop evaluate_batch evaluate_batch_adversarial update_average
          debug debug_batches rest step1 avg1 avgAdv1
        (batch :: r.1, batch :: r.2.1, r.2.2)

/-- The number of batches the loop processes before stopping: all of them,
unless debug mode is on with a positive `debug_batches` target still
ahead of the current step. -/
def takeCount (debug : Bool) (debug_batches step n : ℕ) : ℕ :=
  if debug = true ∧ step < debug_batches then min (debug_batches - step) n else n

/-- The record of one `on_stage_end` call as `AdvASRBrain` issues it: the
stage, the positional running average of the clean loss, the epoch, and
the `stage_adv_loss` keyword holding the adversarial running average. -/
structure StageEndCall where
  stage : Stage
  stage_loss : ℚ
  epoch : Option ℕ
  stage_adv_loss : ℚ
deriving DecidableEq, Repr

/-- The validation phase of one epoch of `AdvASRBrain.fit` (brain.py
lines 396-425): runs the loop from step 0 with both averages 0 and calls
`on_stage_end(sb.Stage.VALID, avg_valid_loss, epoch,
stage_adv_loss=avg_valid_adv_loss)`. -/
def fitValidStage {B : Type} (evaluate_batch evaluate_batch_adversarial : B → ℚ)
    (update_average : ℚ → ℚ → ℕ → ℚ) (debug : Bool) (debug_batches : ℕ)
    (valid_set : List B) (epoch : ℕ) : StageEndCall :=
  let r := evalLoop evaluate_batch evaluate_batch_adversarial update_average
    debug debug_batches valid_set 0 0 0
  { stage := Stage.valid, stage_loss := r.2.2.1, epoch := some epoch,
    stage_adv_loss := r.2.2.2 }

/-- The test loop of `AdvASRBrain.evaluate` (brain.py lines 480-505):
runs the same loop, calls `on_stage_end(sb.Stage.TEST, avg_test_loss,
None, stage_adv_loss=avg_test_adv_loss)` and returns `avg_test_loss`. -/
def evaluateStage {B : Type} (evaluate_batch evaluate_batch_adversarial : B → ℚ)
    (update_average : ℚ → ℚ → ℕ → ℚ) (debug : Bool) (debug_batches : ℕ)
    (test_set : List B) : StageEndCall × ℚ :=
  let r := evalLoop evaluate_batch evaluate_batch_adversarial update_average
    debug debug_batches test_set 0 0 0
  ({ stage := Stage.test, stage_loss := r.2.2.1, epoch := none,
     stage_adv_loss := r.2.2.2 }, r.2.2.1)

theorem takeCount_cons (debug : Bool) (db step n : ℕ)
    (hbr : ¬(debug = true ∧ step + 1 = db)) :
    takeCount debug db step (n + 1) = takeCount debug db (step + 1) n + 1 := by
  cases debug with
  | false => simp [takeCount]
  | true =>
      have hne : step + 1 ≠ db := fun hc => hbr ⟨rfl, hc⟩
      simp only [takeCount, true_and]
      split_ifs <;> omega

/-- Full characterization of `evalLoop`: it processes exactly the prefix
of length `takeCount`, hands every processed batch to both evaluators,
and folds `update_average` over the clean and adversarial losses with the
step counter attached. -/
theorem evalLoop_spec {B : Type} (eb eba : B → ℚ) (ua : ℚ → ℚ → ℕ → ℚ)
    (debug : Bool) (db : ℕ) (l : List B) :
    ∀ (s : ℕ) (a b : ℚ),
      evalLoop eb eba ua debug db l s a b =
        (l.take (takeCount debug db s l.length),
         l.take (takeCount debug db s l.length),
         (List.enumFrom (s + 1) (l.take (takeCount debug db s l.length))).foldl
           (fun acc p => ua (eb p.2) acc p.1) a,
         (List.enumFrom (s + 1) (l.take (takeCount debug db s l.length))).foldl
           (fun acc p => ua (eba p.2) acc p.1) b) := by
  induction l with
  | nil => intro s a b; simp [evalLoop, takeCount]
  | cons x xs ih =>
      intro s a b
      by_cases hbr : debug = true ∧ s + 1 = db
      · have h1 : takeCount debug db s (x :: xs).length = 1 := by
          obtain ⟨hd, he⟩ := hbr
          simp only [takeCount, hd, true_and, List.length_cons]
          rw [if_pos (by omega)]
          omega
        rw [h1]
        simp only [evalLoop, if_pos hbr, List.take_succ_cons, List.take_zero,
          List.enumFrom, List.foldl_cons, List.foldl_nil]
      · have h1 : takeCount debug db s (x :: xs).length
            = takeCount debug db (s + 1) xs.length + 1 := by
          simpa using takeCount_cons debug db s xs.length hbr
        rw [h1]
        simp only [evalLoop, if_neg hbr, ih (s + 1)]
        simp [List.take_succ_cons, List.enumFrom]

/-- C4: in the validation loop of `AdvASRBrain.fit` and in the test loop
of `AdvASRBrain.evaluate`, every batch up to the debug cutoff is
evaluated twice — the list of batches given to `evaluate_batch` and the
list given to `evaluate_batch_adversarial` are one and the same prefix —
and two separate running averages (clean and adversarial, folds of
`update_average` over the respective losses) are maintained and both
passed to `on_stage_end` (the adversarial one as `stage_adv_loss`);
`evaluate` also returns the clean average. -/
theorem fit_valid_and_evaluate_eval_clean_and_adv {B : Type}
    (eb eba : B → ℚ) (ua : ℚ → ℚ → ℕ → ℚ) (debug : Bool) (db : ℕ)
    (valid_set test_set : List B) (epoch : ℕ) :
    (evalLoop eb eba ua debug db valid_set 0 0 0 =
       (valid_set.take (takeCount debug db 0 valid_set.length),
        valid_set.take (takeCount debug db 0 valid_set.length),
        (List.enumFrom 1 (valid_set.take (takeCount debug db 0 valid_set.length))).foldl
          (fun acc p => ua (eb p.2) acc p.1) 0,
        (List.enumFrom 1 (valid_set.take (takeCount debug db 0 valid_set.length))).foldl
          (fun acc p => ua (eba p.2) acc p.1) 0))
    ∧ (fitValidStage eb eba ua debug db valid_set epoch =
        { stage := Stage.valid,
          stage_loss :=
            (List.enumFrom 1 (valid_set.take (takeCount debug db 0 valid_set.length))).foldl
              (fun acc p => ua (eb p.2) acc p.1) 0,
          epoch := some epoch,
          stage_adv_loss :=
            (List.enumFrom 1 (valid_set.take (takeCount debug db 0 valid_set.length))).foldl
              (fun acc p => ua (eba p.2) acc p.1) 0 })
    ∧ (evaluateStage eb eba ua debug db test_set =
        ({ stage := Stage.test,
           stage_loss :=
             (List.enumFrom 1 (test_set.take (takeCount debug db 0 test_set.length))).foldl
               (fun acc p => ua (eb p.2) acc p.1) 0,
           epoch := none,
           stage_adv_loss :=
             (List.enumFrom 1 (test_set.take (takeCount debug db 0 test_set.length))).foldl
               (fun acc p => ua (eba p.2) acc p.1) 0 },
         (List.enumFrom 1 (test_set.take (takeCount debug db 0 test_set.length))).foldl
           (fun acc p => ua (eb p.2) acc p.1) 0)) := by
  refine ⟨evalLoop_spec eb eba ua debug db valid_set 0 0 0, ?_, ?_⟩
  · unfold fitValidStage
    rw [evalLoop_spec eb eba ua debug db valid_set 0 0 0]
  · unfold evaluateStage
    rw [evalLoop_spec eb eba ua debug db test_set 0 0 0]

/-- A torch tensor for the purposes of `fit_batch_adversarial`: its
scalar value, whether it lives on the CPU, and whether it still carries
gradient information. -/
structure Tensor where
  val : ℚ
  on_cpu : Bool
  requires_grad : Bool
deriving DecidableEq, Repr

/-- `loss.detach()`. -/
def Tensor.detach (t : Tensor) : Tensor := { t with requires_grad := false }

/-- `loss.cpu()`. -/
def Tensor.cpu (t : Tensor) : Tensor := { t with on_cpu := true }

/-- The framework calls `fit_batch_adversarial` makes, in order. -/
inductive FitEvent where
  | zero_grad
  | backward
  | optimizer_step
  | scaler_update
deriving DecidableEq, Repr

/-- `AdvASRBrain.fit_batch_adversarial` (brain.py lines 194-234).
`compute_forward_adv` abstracts `self.compute_forward_adversarial(batch,
sb.Stage.TRAIN)` and `compute_objectives` the loss computation; the side
effects on the optimizer and scaler are recorded as an event trace.  In
the mixed-precision branch the gradients are zeroed before the forward
pass and the scaler steps the optimizer; in the plain branch `backward`
runs, the optimizer steps, and the gradients are zeroed after.  In both
branches the optimizer step is guarded by `check_gradients(loss)` and the
detached, CPU-moved loss is returned. -/
def fit_batch_adversarial {B O : Type} (auto_mix_prec : Bool)
    (compute_forward_adv : B → O) (compute_objectives : O → B → Tensor)
    (check_gradients : Tensor → Bool) (batch : B) : List FitEvent × Tensor :=
  if auto_mix_prec then
    let outputs := compute_forward_adv batch
    let loss := compute_objectives outputs batch
    let events1 : List FitEvent := [FitEvent.zero_grad, FitEvent.backward]
    let events2 := if check_gradients loss then events1 ++ [FitEvent.optimizer_step] else events1
    let events3 := events2 ++ [FitEvent.scaler_update]
    (events3, loss.detach.cpu)
  else
    let outputs := compute_forward_adv batch
    let loss := compute_objectives outputs batch
    let events1 : List FitEvent := [FitEvent.backward]
    let events2 := if check_gradients loss then events1 ++ [FitEvent.optimizer_step] else events1
    let events3 := events2 ++ [FitEvent.zero_grad]
    (events3, loss.detach.cpu)

/-- C5: in both the mixed-precision and the plain branch,
`fit_batch_adversarial` backpropagates, performs the optimizer step
exactly when `check_gradients(loss)` passes, zeroes gradients around the
step, and returns the loss of the adversarial forward pass detached and
moved to CPU. -/
theorem fit_batch_adversarial_spec {B O : Type} (auto_mix_prec : Bool)
    (compute_forward_adv : B → O) (compute_objectives : O → B → Tensor)
    (check_gradients : Tensor → Bool) (batch : B) :
    (FitEvent.optimizer_step ∈
        (fit_batch_adversarial auto_mix_prec compute_forward_adv compute_objectives
          check_gradients batch).1
      ↔ check_gradients (compute_objectives (compute_forward_adv batch) batch) = true)
    ∧ FitEvent.backward ∈
        (fit_batch_adversarial auto_mix_prec compute_forward_adv compute_objectives
          check_gradients batch).1
    ∧ FitEvent.zero_grad ∈
        (fit_batch_adversarial auto_mix_prec compute_forward_adv compute_objectives
          check_gradients batch).1
    ∧ (fit_batch_adversarial auto_mix_prec compute_forward_adv compute_objectives
          check_gradients batch).2
        = (compute_objectives (compute_forward_adv batch) batch).detach.cpu
    ∧ (fit_batch_adversarial auto_mix_prec compute_forward_adv compute_objectives
          check_gradients batch).2.requires_grad = false
    ∧ (fit_batch_adversarial auto_mix_prec compute_forward_adv compute_objectives
          check_gradients batch).2.on_cpu = true
    ∧ (fit_batch_adversarial auto_mix_prec compute_forward_adv compute_objectives
          check_gradients batch).2.val
        = (compute_objectives (compute_forward_adv batch) batch).val := by
  cases auto_mix_prec
    <;> cases hcg : check_gradients (compute_objectives (compute_forward_adv batch) batch)
    <;> simp [fit_batch_adversarial, hcg, Tensor.detach, Tensor.cpu]

/-- Python `print(s, file=out, end=endline)` on a text stream modelled as
the string written so far. -/
def pyPrint (out s endline : String) : String := out ++ s ++ endline

/-- Concatenation of a list of written chunks. -/
def concatAll : List String → String
  | [] => ""
  | s :: rest => s ++ concatAll rest

/-- Python fixed-point formatting of a float with two decimals,
modelled on the rationals: round to hundredths and render sign, integer
part and a zero-padded two-digit fractional part. -/
def formatFix2 (q : ℚ) : String :=
  let n : ℤ := round (q * 100)
  let sign := if n < 0 then "-" else ""
  let m := n.natAbs
  sign ++ toString (m / 100) ++ "." ++ (if m % 100 < 10 then "0" else "") ++ toString (m % 100)

/-- The dictionary of WER summary details that
`speechbrain.utils.edit_distance.wer_summary` produces and
`print_wer_summary` consumes. -/
structure WerSummary where
  WER : ℚ
  num_edits : ℕ
  num_scored_tokens : ℕ
  insertions : ℕ
  deletions : ℕ
  substitutions : ℕ
  num_scored_sents : ℕ
  num_ref_sents : ℕ
  SER : ℚ
  num_erraneous_sents : ℕ
  num_absent_sents : ℕ
deriving DecidableEq, Repr

/-- `print_wer_summary` (write_result.py lines 7-45): four `print` calls
on the stream, the first with `end=""` so that the `[PARTIAL]` marker (or
nothing) completes the WER line. -/
def print_wer_summary (d : WerSummary) (out : String) : String :=
  let out1 := pyPrint out ("%WER " ++ formatFix2 d.WER ++ " [ " ++ toString d.num_edits
    ++ " / " ++ toString d.num_scored_tokens ++ ", " ++ toString d.insertions
    ++ " ins, " ++ toString d.deletions ++ " del, " ++ toString d.substitutions
    ++ " sub ]") ("")
  let out2 := pyPrint out1
    (if d.num_scored_sents < d.num_ref_sents then " [PARTIAL]" else "") ("\n")
  let out3 := pyPrint out2 ("%SER " ++ formatFix2 d.SER ++ " [ "
    ++ toString d.num_erraneous_sents ++ " / " ++ toString d.num_scored_sents ++ " ]") ("\n")
  pyPrint out3 ("Scored " ++ toString d.num_scored_sents ++ " sentences, "
    ++ toString d.num_absent_sents ++ " not present in hyp.") ("\n")

/-- C6: on an empty stream, `print_wer_summary` writes a WER line with
the edit count over the scored-token count and the three edit-kind
counts, carrying the marker `[PARTIAL]` exactly when
`num_scored_sents < num_ref_sents`, then an SER line with the erroneous
sentence count over the scored sentence count (and a final summary
line). -/
theorem print_wer_summary_spec (d : WerSummary) :
    print_wer_summary d ("") =
      ("%WER " ++ formatFix2 d.WER ++ " [ " ++ toString d.num_edits ++ " / "
        ++ toString d.num_scored_tokens ++ ", " ++ toString d.insertions ++ " ins, "
        ++ toString d.deletions ++ " del, " ++ toString d.substitutions ++ " sub ]"
        ++ (if d.num_scored_sents < d.num_ref_sents then " [PARTIAL]" else "") ++ "\n")
      ++ ("%SER " ++ formatFix2 d.SER ++ " [ " ++ toString d.num_erraneous_sents
        ++ " / " ++ toString d.num_scored_sents ++ " ]" ++ "\n")
      ++ ("Scored " ++ toString d.num_scored_sents ++ " sentences, "
        ++ toString d.num_absent_sents ++ " not present in hyp." ++ "\n") := by
  simp [print_wer_summary, pyPrint, String.append_assoc]

/-- A string has length zero exactly when it is the empty string. -/
theorem string_length_eq_zero_iff (s : String) : s.length = 0 ↔ s = "" := by
  cases s with
  | mk l =>
      constructor
      · intro h
        have hl : l = [] := List.length_eq_zero.mp (by simpa [String.length] using h)
        rw [hl]
      · intro h
        have hl : l = [] := congrArg String.data h
        simp [String.length, hl]

/-- Printing newline-terminated chunks one by one with a `foldl` appends
their concatenation. -/
theorem foldl_pyPrint_concatAll {A : Type} (f : A → String) :
    ∀ (l : List A) (out : String),
      l.foldl (fun o x => pyPrint o (f x) ("\n")) out
        = out ++ concatAll (l.map (fun x => f x ++ "\n"))
  | [], out => by simp [concatAll, String.append_empty]
  | x :: rest, out => by
      simp only [List.foldl_cons]
      rw [foldl_pyPrint_concatAll f rest]
      simp [pyPrint, concatAll, String.append_assoc]

/-- `print_snr_csv` (write_result.py lines 230-244): the stream is read
from position zero to test emptiness, the cursor returns to the end, the
header is written when the file was empty, and one line per entry of
`metrics_detail` follows.  Each entry is `(score, (id, iter_idx))`. -/
def print_snr_csv (metrics_detail : List (ℚ × String × ℕ)) (contents : String) : String :=
  let is_file_empty := contents.length = 0
  let out1 := if is_file_empty then
      pyPrint contents (String.intercalate (",") [("id"), ("iter"), ("snr")]) ("\n")
    else contents
  metrics_detail.foldl
    (fun out x => pyPrint out (x.2.1 ++ "," ++ toString x.2.2 ++ "," ++ toString x.1) ("\n"))
    out1

/-- C8: `print_snr_csv` writes the header line `id,iter,snr` if and only
if the file contents are empty at call time, then appends, in input
order, one CSV line per entry of `metrics_detail` holding the entry's id,
iteration index and SNR score. -/
theorem print_snr_csv_spec (metrics_detail : List (ℚ × String × ℕ)) (contents : String) :
    print_snr_csv metrics_detail contents =
      contents ++ (if contents = "" then "id,iter,snr" ++ "\n" else "")
        ++ concatAll (metrics_detail.map
            (fun x => x.2.1 ++ "," ++ toString x.2.2 ++ "," ++ toString x.1 ++ "\n")) := by
  unfold print_snr_csv
  rw [foldl_pyPrint_concatAll (fun x => x.2.1 ++ "," ++ toString x.2.2 ++ "," ++ toString x.1)
    metrics_detail]
  have hh : String.intercalate (",") [("id"), ("iter"), ("snr")] = "id,iter,snr" := rfl
  by_cases hc : contents = ""
  · rw [if_pos ((string_length_eq_zero_iff contents).mpr hc), if_pos hc, hc, hh]
    simp [pyPrint, String.append_assoc]
  · rw [if_neg (fun h0 => hc ((string_length_eq_zero_iff contents).mp h0)), if_neg hc]
    simp [String.append_empty]

/-- CPython `str.center(width)`: the string unchanged when `width` does
not exceed its length, otherwise padded with spaces, the left padding
being `marg // 2 + (marg & width & 1)` for `marg = width - len`. -/
def pyCenter (s : String) (width : ℕ) : String :=
  if width ≤ s.length then s
  else
    let marg := width - s.length
    let left := marg / 2 + (marg &&& width &&& 1)
    String.mk (List.replicate left ' ') ++ s ++ String.mk (List.replicate (marg - left) ' ')

/-- The length of a centered string is the target width or the original
length, whichever is larger. -/
theorem pyCenter_length (s : String) (width : ℕ) :
    (pyCenter s width).length = max width s.length := by
  unfold pyCenter
  by_cases h : width ≤ s.length
  · rw [if_pos h]
    omega
  · rw [if_neg h]
    simp only [String.length_append, String.length_mk, List.length_replicate]
    generalize hc : (width - s.length) &&& width &&& 1 = c
    have hb : c ≤ 1 := by
      rw [← hc]
      exact Nat.and_le_right
    omega

/-- One element of an utterance's alignment: the edit-operation symbol
and the (optional) indices into the reference and hypothesis tokens. -/
structure AlignOp where
  op : String
  i : Option ℕ
  j : Option ℕ
deriving DecidableEq, Repr

/-- `str(a[i]) if i is not None else empty_symbol`
(write_result.py lines 135-136; in-range indices, as produced by the
edit-distance alignment, are assumed). -/
def renderToken (empty_symbol : String) (tokens : List String) (idx : Option ℕ) : String :=
  match idx with
  | some i => tokens.getD i ("")
  | none => empty_symbol

/-- `pad_length = max(len(op_string), len(a_string), len(b_string))`
(write_result.py line 140). -/
def padWidth (empty_symbol : String) (a b : List String) (t : AlignOp) : ℕ :=
  max t.op.length
    (max (renderToken empty_symbol a t.i).length (renderToken empty_symbol b t.j).length)

/-- The padded `(a_string, b_string, op_string)` triple for one alignment
element (write_result.py lines 133-143). -/
def padTriple (empty_symbol : String) (a b : List String) (t : AlignOp) :
    String × String × String :=
  (pyCenter (renderToken empty_symbol a t.i) (padWidth empty_symbol a b t),
   pyCenter (renderToken empty_symbol b t.j) (padWidth empty_symbol a b t),
   pyCenter t.op (padWidth empty_symbol a b t))

/-- The `a_padded`/`b_padded`/`ops_padded` columns of `_print_alignment`,
one triple per alignment element. -/
def alignFields (empty_symbol : String) (a b : List String) (alignment : List AlignOp) :
    List (String × String × String) :=
  alignment.map (padTriple empty_symbol a b)

/-- `_print_alignment` (write_result.py lines 126-147): the three printed
lines, in the order reference tokens, edit operations, hypothesis tokens,
each the separator-join of its padded column entries. -/
def alignLines (alignment : List AlignOp) (a b : List String)
    (empty_symbol separator : String) : List String :=
  let fields := alignFields empty_symbol a b alignment
  [String.intercalate separator (fields.map (fun t => t.1)),
   String.intercalate separator (fields.map (fun t => t.2.2)),
   String.intercalate separator (fields.map (fun t => t.2.1))]

/-- One entry of `details_by_utterance` as `print_alignments` consumes
it (the fields of `speechbrain.utils.edit_distance.wer_details_by_utterance`
that the function and its header reader touch). -/
structure UttDetails where
  key : String
  scored : Bool
  WER : ℚ
  num_edits : ℕ
  num_ref_tokens : ℕ
  insertions : ℕ
  deletions : ℕ
  substitutions : ℕ
  alignment : List AlignOp
  ref_tokens : List String
  hyp_tokens : List String
deriving DecidableEq, Repr

/-- The `"=" * 80` banner. -/
def eqBanner : String := concatAll (List.replicate 80 ("="))

/-- `_print_alignment_header` (write_result.py lines 178-185). -/
def alignmentHeaderLines (d : UttDetails) : List String :=
  [eqBanner,
   d.key ++ ", %WER " ++ formatFix2 d.WER ++ " [ " ++ toString d.num_edits ++ " / "
     ++ toString d.num_ref_tokens ++ ", " ++ toString d.insertions ++ " ins, "
     ++ toString d.deletions ++ " del, " ++ toString d.substitutions ++ " sub ]"]

/-- `if sample_separator: print(sample_separator, file=file)` — Python
truthiness makes both `None` and the empty string print nothing. -/
def sampleSepLines (sample_separator : Option String) : List String :=
  match sample_separator with
  | none => []
  | some s => if s = "" then [] else [s]

/-- The lines one selected utterance contributes: optional header, the
three alignment lines, and the optional sample separator. -/
def blockLines (empty_symbol separator : String) (print_header : Bool)
    (sample_separator : Option String) (d : UttDetails) : List String :=
  (if print_header then alignmentHeaderLines d else [])
    ++ alignLines d.alignment d.ref_tokens d.hyp_tokens empty_symbol separator
    ++ sampleSepLines sample_separator

/-- The loop of `print_alignments` (write_result.py lines 78-92), carrying
the running `index` of `enumerate`: an utterance contributes a block iff
`index % total_iters == 0` and its `scored` flag is set. -/
def printAlignmentsAux (empty_symbol separator : String) (print_header : Bool)
    (sample_separator : Option String) (total_iters : ℕ) :
    List UttDetails → ℕ → List (ℕ × List String)
  | [], _ => []
  | d :: rest, index =>
    if index % total_iters = 0 ∧ d.scored = true then
      (index, blockLines empty_symbol separator print_header sample_separator d)
        :: printAlignmentsAux empty_symbol separator print_header sample_separator total_iters
             rest (index + 1)
    else printAlignmentsAux empty_symbol separator print_header sample_separator total_iters
           rest (index + 1)

/-- `print_alignments` (write_result.py lines 49-92): the emitted blocks
paired with the utterance index that produced each. -/
def print_alignments (details_by_utterance : List UttDetails)
    (empty_symbol separator : String) (print_header : Bool)
    (sample_separator : Option String) (total_iters : ℕ) : List (ℕ × List String) :=
  printAlignmentsAux empty_symbol separator print_header sample_separator total_iters
    details_by_utterance 0

theorem printAlignmentsAux_spec (e sep : String) (ph : Bool) (ss : Option String) (ti : ℕ) :
    ∀ (dets : List UttDetails) (i : ℕ),
      printAlignmentsAux e sep ph ss ti dets i =
        ((List.enumFrom i dets).filter (fun p => p.1 % ti == 0 && p.2.scored)).map
          (fun p => (p.1, blockLines e sep ph ss p.2))
  | [], i => by simp [printAlignmentsAux, List.enumFrom]
  | d :: rest, i => by
      rw [printAlignmentsAux]
      by_cases hcond : i % ti = 0 ∧ d.scored = true
      · rw [if_pos hcond]
        simp [List.enumFrom, List.filter, hcond.1, hcond.2,
          printAlignmentsAux_spec e sep ph ss ti rest (i + 1)]
      · rw [if_neg hcond]
        have hb : (i % ti == 0 && d.scored) = false := by
          rcases Bool.eq_false_or_eq_true d.scored with hs | hs
          · have hne : ¬ i % ti = 0 := fun h0 => hcond ⟨h0, hs⟩
            simp [hne]
          · simp [hs]
        simp [List.enumFrom, List.filter, hb,
          printAlignmentsAux_spec e sep ph ss ti rest (i + 1)]

theorem getD_map_of_lt {A B : Type} (g : A → B) :
    ∀ (l : List A) (k : ℕ), k < l.length → ∀ (d : A) (d2 : B),
      (l.map g).getD k d2 = g (l.getD k d)
  | [], k, hk => absurd hk (by simp)
  | x :: xs, 0, _ => by
      intro d d2
      rfl
  | x :: xs, k + 1, hk => by
      intro d d2
      simpa using getD_map_of_lt g xs k (by simpa using hk) d d2

/-- C7: `print_alignments` prints a block exactly for the utterances
whose index is a multiple of `total_iters` and whose `scored` flag is
true; each block's three alignment lines are the reference tokens, edit
operations and hypothesis tokens, drawn from one shared column list (so
all three lines have `alignment.length` fields); the `k`-th column is the
padded triple of the `k`-th alignment element, a `None` token index is
rendered as the empty symbol, and every entry of a column is padded to
the width of the widest of its three entries. -/
theorem print_alignments_spec (details : List UttDetails) (e sep : String)
    (ph : Bool) (ss : Option String) (ti : ℕ) (alignment : List AlignOp)
    (a b : List String) (k : ℕ) (_h : 0 < ti) (hk : k < alignment.length) :
    (print_alignments details e sep ph ss ti =
      ((details.enum.filter (fun p => p.1 % ti == 0 && p.2.scored)).map
        (fun p => (p.1, blockLines e sep ph ss p.2))))
    ∧ (alignLines alignment a b e sep).length = 3
    ∧ (alignFields e a b alignment).length = alignment.length
    ∧ (alignLines alignment a b e sep =
        [String.intercalate sep ((alignFields e a b alignment).map (fun t => t.1)),
         String.intercalate sep ((alignFields e a b alignment).map (fun t => t.2.2)),
         String.intercalate sep ((alignFields e a b alignment).map (fun t => t.2.1))])
    ∧ ((alignFields e a b alignment).getD k (("", "", "")) =
        padTriple e a b (alignment.getD k (AlignOp.mk ("") none none)))
    ∧ ((alignFields e a b alignment).getD k (("", "", ""))).1.length =
        padWidth e a b (alignment.getD k (AlignOp.mk ("") none none))
    ∧ ((alignFields e a b alignment).getD k (("", "", ""))).2.1.length =
        padWidth e a b (alignment.getD k (AlignOp.mk ("") none none))
    ∧ ((alignFields e a b alignment).getD k (("", "", ""))).2.2.length =
        padWidth e a b (alignment.getD k (AlignOp.mk ("") none none))
    ∧ renderToken e a none = e := by
  have hsel : print_alignments details e sep ph ss ti =
      ((details.enum.filter (fun p => p.1 % ti == 0 && p.2.scored)).map
        (fun p => (p.1, blockLines e sep ph ss p.2))) := by
    unfold print_alignments
    rw [printAlignmentsAux_spec e sep ph ss ti details 0]
    rfl
  have hfield : (alignFields e a b alignment).getD k (("", "", "")) =
      padTriple e a b (alignment.getD k (AlignOp.mk ("") none none)) :=
    getD_map_of_lt (padTriple e a b) alignment k hk (AlignOp.mk ("") none none) (("", "", ""))
  have hwa : (renderToken e a (alignment.getD k (AlignOp.mk ("") none none)).i).length ≤
      padWidth e a b (alignment.getD k (AlignOp.mk ("") none none)) :=
    le_trans (le_max_left _ _) (le_max_right _ _)
  have hwb : (renderToken e b (alignment.getD k (AlignOp.mk ("") none none)).j).length ≤
      padWidth e a b (alignment.getD k (AlignOp.mk ("") none none)) :=
    le_trans (le_max_right _ _) (le_max_right _ _)
  have hwo : (alignment.getD k (AlignOp.mk ("") none none)).op.length ≤
      padWidth e a b (alignment.getD k (AlignOp.mk ("") none none)) :=
    le_max_left _ _
  refine ⟨hsel, rfl, by simp [alignFields], rfl, hfield, ?_, ?_, ?_, rfl⟩
  · rw [hfield]
    unfold padTriple
    rw [pyCenter_length]
    omega
  · rw [hfield]
    unfold padTriple
    rw [pyCenter_length]
    omega
  · rw [hfield]
    unfold padTriple
    rw [pyCenter_length]
    omega

/-- Witness for C7 at a concrete input: one scored utterance with a
one-element alignment, `total_iters = 1`. -/
theorem print_alignments_spec_witness :
    print_alignments
        [UttDetails.mk ("utt1") true 0 1 1 0 0 1
          [AlignOp.mk ("S") (some 0) (some 0)] [("cat")] [("hat")]]
        ("<eps>") (" ; ") false none 1 =
      [(0, blockLines ("<eps>") (" ; ") false none
        (UttDetails.mk ("utt1") true 0 1 1 0 0 1
          [AlignOp.mk ("S") (some 0) (some 0)] [("cat")] [("hat")]))] :=
  (print_alignments_spec
    [UttDetails.mk ("utt1") true 0 1 1 0 0 1
      [AlignOp.mk ("S") (some 0) (some 0)] [("cat")] [("hat")]]
    ("<eps>") (" ; ") false none 1
    [AlignOp.mk ("S") (some 0) (some 0)] [("cat")] [("hat")] 0
    (by decide) (by decide)).1

/-- A plain attribute dictionary, as `object.__setattr__` maintains it:
setting shadows, `List.lookup` reads the latest binding. -/
def dictSet {A : Type} (d : List (String × A)) (k : String) (v : A) : List (String × A) :=
  (k, v) :: d

/-- The brain wrapped inside the attacker, seen through
`super(AdvASRBrain, self.attacker.asr_brain).__setattr__`: a plain
attribute dictionary (the `super` call bypasses the override, so no
further propagation happens there). -/
structure SubBrainState (A : Type) where
  attrs : List (String × A)
deriving DecidableEq, Repr

/-- The attacker object, with its `asr_brain` attribute. -/
structure AttackerState (A : Type) where
  asr_brain : SubBrainState A
deriving DecidableEq, Repr

/-- An `AdvASRBrain`: its own plain attributes, and the `attacker`
attribute (`none` models `hasattr(self, "attacker")` being false). -/
structure AdvASRBrainState (A : Type) where
  attacker : Option (AttackerState A)
  attrs : List (String × A)
deriving DecidableEq, Repr

/-- `AdvASRBrain.__setattr__` (brain.py lines 158-161): when the brain
has an attacker, the name is not `attacker` and the `attacker_brain`
flag (default `True`) is set, the same assignment is first replayed on
`self.attacker.asr_brain`; then the attribute is set on `self`. -/
def advSetattr {A : Type} (b : AdvASRBrainState A) (name : String) (value : A)
    (attacker_brain : Bool) : AdvASRBrainState A :=
  let setSub := fun (atk : AttackerState A) =>
    AttackerState.mk (SubBrainState.mk (dictSet atk.asr_brain.attrs name value))
  let b1 :=
    if b.attacker.isSome = true ∧ name ≠ "attacker" ∧ attacker_brain = true then
      { b with attacker := b.attacker.map setSub }
    else b
  { b1 with attrs := dictSet b1.attrs name value }

/-- C9: for a brain with an attacker configured, setting any attribute
whose name is not `attacker` (with the default `attacker_brain=True`)
sets the same attribute to the same value both on the brain itself and on
the brain wrapped inside the attacker. -/
theorem setattr_propagates_to_attacker_brain {A : Type} (b : AdvASRBrainState A)
    (name : String) (v : A) (atk : AttackerState A)
    (h1 : b.attacker = some atk) (h2 : name ≠ "attacker") :
    ((advSetattr b name v true).attrs.lookup name = some v)
    ∧ ∃ atk2, (advSetattr b name v true).attacker = some atk2
        ∧ atk2.asr_brain.attrs.lookup name = some v := by
  have hcond : b.attacker.isSome = true ∧ name ≠ "attacker" ∧ (true : Bool) = true :=
    ⟨by rw [h1]; rfl, h2, rfl⟩
  refine ⟨?_, ?_⟩
  · simp [advSetattr, dictSet, if_pos hcond, List.lookup]
  · refine ⟨AttackerState.mk (SubBrainState.mk (dictSet atk.asr_brain.attrs name v)), ?_, ?_⟩
    · simp [advSetattr, if_pos hcond, h1, dictSet]
      rw [if_neg h2]
    · simp [dictSet, List.lookup]

/-- Witness for C9 at a concrete input: a brain with an attacker wrapping
an attribute-free sub-brain, setting attribute `lr` to `3`. -/
theorem setattr_propagates_to_attacker_brain_witness :
    ((advSetattr (AdvASRBrainState.mk (some (AttackerState.mk (SubBrainState.mk [])))
        ([] : List (String × ℕ)) ) ("lr") 3 true).attrs.lookup ("lr") = some 3)
    ∧ ∃ atk2, (advSetattr (AdvASRBrainState.mk (some (AttackerState.mk (SubBrainState.mk [])))
        ([] : List (String × ℕ)) ) ("lr") 3 true).attacker = some atk2
        ∧ atk2.asr_brain.attrs.lookup ("lr") = some 3 :=
  setattr_propagates_to_attacker_brain
    (AdvASRBrainState.mk (some (AttackerState.mk (SubBrainState.mk []))) [])
    ("lr") 3 (AttackerState.mk (SubBrainState.mk [])) rfl (by decide)

/-- One entry of `details_by_utterance` as `print_log_csv` reads it. -/
structure LogUttDetails where
  key : String
  ref_tokens : List String
  hyp_tokens : List String
deriving DecidableEq, Repr

/-- The `results` dictionary that `print_log_csv` builds: each key is
`none` while the corresponding dictionary key has not been created. -/
structure LogResults where
  ground_truth : Option String
  target : Option String
  prediction : Option (List String)
deriving DecidableEq, Repr

/-- Python `' '.join(tokens)`. -/
def joinSpace (tokens : List String) : String := String.intercalate (" ") tokens

/-- The collection loop of `print_log_csv` (write_result.py lines
191-205): the first entry whose key matches `id` fills `ground_truth` and
starts `prediction`; every later matching entry fills `target` (once) and
appends to `prediction`. -/
def collectLoop (id : String) : List LogUttDetails → Bool → LogResults → LogResults
  | [], _, r => r
  | det :: rest, first, r =>
    if det.key == id then
      if first then
        let r1 := if r.ground_truth = none
          then LogResults.mk (some (joinSpace det.ref_tokens)) r.target r.prediction else r
        let r2 := if r1.prediction = none
          then LogResults.mk r1.ground_truth r1.target (some [joinSpace det.hyp_tokens]) else r1
        collectLoop id rest false r2
      else
        let r1 := if r.target = none
          then LogResults.mk r.ground_truth (some (joinSpace det.ref_tokens)) r.prediction else r
        let r2 := if r1.prediction = none
          then LogResults.mk r1.ground_truth r1.target (some []) else r1
        let r3 := LogResults.mk r2.ground_truth r2.target
          (r2.prediction.map (fun l => l ++ [joinSpace det.hyp_tokens]))
        collectLoop id rest first r3
    else collectLoop id rest first r

/-- The `results` dictionary after the collection loop, started from the
empty dictionary with `first = True`. -/
def logResults (details_by_utterance : List LogUttDetails) (id : String) : LogResults :=
  collectLoop id details_by_utterance true (LogResults.mk none none none)

/-- The CSV header of `print_log_csv`. -/
def logHeader : String :=
  String.intercalate (",")
    [("id"), ("iter"), ("ground_truth"), ("target"), ("prediction"), ("gt_wer"), ("tg_wer")]

/-- One data row of `print_log_csv`, newline included; `werFn` abstracts
`jiwer.wer`. -/
def logRow (werFn : String → String → ℚ) (id g t : String) (it : ℕ) (pre : String) : String :=
  id ++ "," ++ toString it ++ "," ++ g ++ "," ++ t ++ "," ++ pre ++ ","
    ++ toString (werFn g pre * 100) ++ "," ++ toString (werFn t pre * 100) ++ "\n"

/-- The row loop `for it, pre in enumerate(results['prediction'])`
(write_result.py lines 218-227).  Reading a dictionary key that was never
created raises `KeyError`, modelled as `Except.error` (file contents
already written are not tracked on the error path). -/
def logRowsLoop (werFn : String → String → ℚ) (id : String) (gt tgt : Option String) :
    List String → ℕ → String → Except String String
  | [], _, out => .ok out
  | pre :: rest, it, out =>
    match gt with
    | none => .error ("KeyError: ground_truth")
    | some g =>
      match tgt with
      | none => .error ("KeyError: target")
      | some t =>
          logRowsLoop werFn id gt tgt rest (it + 1)
            (out ++ logRow werFn id g t it pre)

/-- `print_log_csv` (write_result.py lines 188-227): collect the matching
entries, write the header when the file is empty, then write one row per
collected prediction; missing dictionary keys raise `KeyError`. -/
def print_log_csv (werFn : String → String → ℚ) (details_by_utterance : List LogUttDetails)
    (id : String) (contents : String) : Except String String :=
  let results := logResults details_by_utterance id
  let out1 := if contents.length = 0 then pyPrint contents logHeader ("\n") else contents
  match results.prediction with
  | none => .error ("KeyError: prediction")
  | some preds => logRowsLoop werFn id results.ground_truth results.target preds 0 out1

theorem collectLoop_false_spec (id : String) :
    ∀ (dets : List LogUttDetails) (r : LogResults),
      collectLoop id dets false r =
        LogResults.mk r.ground_truth
          (if r.target.isSome then r.target
           else ((dets.filter (fun d => d.key == id)).head?).map
             (fun d => joinSpace d.ref_tokens))
          (if (dets.filter (fun d => d.key == id)).isEmpty then r.prediction
           else some (r.prediction.getD [] ++
             (dets.filter (fun d => d.key == id)).map (fun d => joinSpace d.hyp_tokens)))
  | [], r => by
      cases r with
      | mk g t p => cases t <;> simp [collectLoop]
  | det :: rest, r => by
      by_cases hd : (det.key == id) = true
      · cases r with
        | mk g t p =>
            cases t <;> cases p <;>
              simp [collectLoop, hd, collectLoop_false_spec id rest, List.filter_cons,
                List.isEmpty_iff, List.getD]
      · cases r with
        | mk g t p =>
            simp [collectLoop, hd, collectLoop_false_spec id rest, List.filter_cons]

theorem logResults_spec (id : String) :
    ∀ (dets : List LogUttDetails),
      logResults dets id =
        LogResults.mk
          (((dets.filter (fun d => d.key == id)).head?).map (fun d => joinSpace d.ref_tokens))
          (((dets.filter (fun d => d.key == id)).tail.head?).map
            (fun d => joinSpace d.ref_tokens))
          (if (dets.filter (fun d => d.key == id)).isEmpty then none
           else some ((dets.filter (fun d => d.key == id)).map
             (fun d => joinSpace d.hyp_tokens)))
  | dets => by
      suffices hgen : ∀ (l : List LogUttDetails),
          collectLoop id l true (LogResults.mk none none none) =
            LogResults.mk
              (((l.filter (fun d => d.key == id)).head?).map (fun d => joinSpace d.ref_tokens))
              (((l.filter (fun d => d.key == id)).tail.head?).map
                (fun d => joinSpace d.ref_tokens))
              (if (l.filter (fun d => d.key == id)).isEmpty then none
               else some ((l.filter (fun d => d.key == id)).map
                 (fun d => joinSpace d.hyp_tokens))) by
        exact hgen dets
      intro l
      induction l with
      | nil => simp [collectLoop]
      | cons det rest ih =>
          by_cases hd : (det.key == id) = true
          · simp [collectLoop, hd, List.filter_cons, collectLoop_false_spec id rest,
              List.isEmpty_iff, List.getD]
          · simp [collectLoop, hd, List.filter_cons, ih]

theorem logRowsLoop_ok (werFn : String → String → ℚ) (id g t : String) :
    ∀ (preds : List String) (it : ℕ) (out : String),
      logRowsLoop werFn id (some g) (some t) preds it out =
        .ok (out ++ concatAll ((List.enumFrom it preds).map
          (fun p => logRow werFn id g t p.1 p.2)))
  | [], it, out => by simp [logRowsLoop, List.enumFrom, concatAll, String.append_empty]
  | pre :: rest, it, out => by
      rw [logRowsLoop]
      rw [logRowsLoop_ok werFn id g t rest (it + 1)]
      simp [List.enumFrom, concatAll, String.append_assoc]

/-- C10: `print_log_csv` raises `KeyError` whenever `id` matches the key
of at most one entry — with zero matches the `prediction` key was never
created, with exactly one match the `target` key was never created and
the row loop fails on its first row — and only with at least two matches
does it succeed, writing one CSV row per collected prediction. -/
theorem print_log_csv_keyerror_spec (werFn : String → String → ℚ)
    (details : List LogUttDetails) (id : String) (contents : String) :
    ((details.filter (fun d => d.key == id)).length = 0 →
      print_log_csv werFn details id contents = .error ("KeyError: prediction"))
    ∧ ((details.filter (fun d => d.key == id)).length = 1 →
      print_log_csv werFn details id contents = .error ("KeyError: target"))
    ∧ (2 ≤ (details.filter (fun d => d.key == id)).length →
      ∃ rows : List String,
        rows.length = (details.filter (fun d => d.key == id)).length
        ∧ print_log_csv werFn details id contents =
            .ok ((if contents.length = 0 then contents ++ logHeader ++ "\n" else contents)
              ++ concatAll rows)) := by
  refine ⟨?_, ?_, ?_⟩
  · intro h0
    have hnil : details.filter (fun d => d.key == id) = [] := List.length_eq_zero.mp h0
    unfold print_log_csv
    rw [logResults_spec id details, hnil]
    rfl
  · intro h1
    obtain ⟨d0, hone⟩ := List.length_eq_one.mp h1
    unfold print_log_csv
    rw [logResults_spec id details, hone]
    rfl
  · intro h2
    have hne : details.filter (fun d => d.key == id) ≠ [] := by
      intro hc
      rw [hc] at h2
      simp at h2
    obtain ⟨d0, rest0, hcons⟩ := List.exists_cons_of_ne_nil hne
    have hne2 : rest0 ≠ [] := by
      intro hc
      rw [hcons, hc] at h2
      simp at h2
    obtain ⟨d1, rest1, hcons2⟩ := List.exists_cons_of_ne_nil hne2
    refine ⟨(List.enumFrom 0 ((details.filter (fun d => d.key == id)).map
        (fun d => joinSpace d.hyp_tokens))).map
        (fun p => logRow werFn id (joinSpace d0.ref_tokens) (joinSpace d1.ref_tokens)
          p.1 p.2), ?_, ?_⟩
    · simp
    · unfold print_log_csv
      rw [logResults_spec id details]
      rw [hcons, hcons2]
      simp only [List.isEmpty_cons, List.head?_cons, List.tail_cons, Option.map_some,
        Option.map_some', ite_false, Bool.false_eq_true]
      rw [logRowsLoop_ok]
      rw [← hcons2, ← hcons]
      by_cases hc : contents.length = 0
      · rw [if_pos hc, if_pos hc]
        rfl
      · rw [if_neg hc, if_neg hc]

/-- Witness for C10 at a concrete input: an empty detail list has zero
matches, so the call raises the `prediction` `KeyError`. -/
theorem print_log_csv_keyerror_spec_witness :
    print_log_csv (fun _ _ => 0) [] ("spk1") ("") = .error ("KeyError: prediction") :=
  (print_log_csv_keyerror_spec (fun _ _ => 0) [] ("spk1") ("")).1 rfl

end RobustSpeech
